import Mathlib

/-!
Verification of the Kundli (Vedic birth chart) generator `app.py`.

The program's own logic — house assignment from right ascension, the
ascendant loop, yoga rules, the chart layout constants, input validation
and the main control flow — is embedded shallowly below.  The external
`ephem` astronomy library is abstracted as an oracle (`EphemOracle`):
its outputs (right ascension, constellation name, date parsing) are
uninterpreted functions, while its documented numeric guarantees
(e.g. right ascension normalised to `[0, 2π)`) appear as hypotheses.
Real-valued quantities are modelled over `ℚ`, with the float constant
`ephem.pi` carried as a positive rational parameter.
-/

set_option autoImplicit false

namespace Kundli

/-- Python `int()` applied to a rational: truncation toward zero. -/
def pyInt (x : ℚ) : ℤ :=
  if 0 ≤ x then ⌊x⌋ else -⌊-x⌋

/-- Python `round` to an integer: round half to even (banker's rounding). -/
def roundHalfEven (x : ℚ) : ℤ :=
  if x - ⌊x⌋ < 1/2 then ⌊x⌋
  else if 1/2 < x - ⌊x⌋ then ⌊x⌋ + 1
  else if ⌊x⌋ % 2 = 0 then ⌊x⌋ else ⌊x⌋ + 1

/-- Python `round(x, 2)`: round to two decimal places. -/
def round2 (x : ℚ) : ℚ :=
  (roundHalfEven (100 * x) : ℚ) / 100

/-- `app.py` line 61: `int((body.ra / (2 * ephem.pi)) * 12) + 1`. -/
def house_raw (ra piQ : ℚ) : ℤ :=
  pyInt (ra / (2 * piQ) * 12) + 1

/-- `app.py` line 62: `house_number if house_number <= 12 else house_number - 12`. -/
def wrapHouse (h : ℤ) : ℤ :=
  if h ≤ 12 then h else h - 12

/-- The nine tracked celestial bodies (keys of the `planets` dict). -/
inductive Body where
  | Sun | Moon | Mars | Mercury | Jupiter | Venus | Saturn | Rahu | Ketu
deriving DecidableEq, Fintype

/-- Raw calendar-date input `(year, month, day)` as the user supplies it. -/
structure DateV where
  year : ℤ
  month : ℤ
  day : ℤ
deriving DecidableEq

/-- Raw clock-time input `(hour, minute, second)`. -/
structure TimeV where
  hour : ℤ
  minute : ℤ
  second : ℤ
deriving DecidableEq

/-- `ephem.Observer`: latitude, longitude and a date number (days). -/
structure Observer where
  lat : ℚ
  lon : ℚ
  date : ℚ
deriving DecidableEq

/-- Oracle for the `ephem` astronomy library: the float constants
`ephem.pi` and `ephem.hour`, the right ascension `body.ra` after
`body.compute(obs)`, the zodiac-sign component `ephem.constellation(body)[1]`
of a body computed at an observer, and the parse of `f"{date} {time}"`
into an observer date number. -/
structure EphemOracle where
  piQ : ℚ
  hour : ℚ
  bodyRA : Observer → Body → ℚ
  bodyConstellation : Observer → Body → String
  dateNum : DateV → TimeV → ℚ

/-- One entry of the `planet_positions` dict: house, zodiac sign, degrees. -/
structure PlanetPosition where
  house : ℤ
  nakshatra : String
  degrees : ℚ
deriving DecidableEq

/-- The `planets` dict of `get_planet_positions`, in insertion order. -/
def planets : List (String × Body) :=
  [("Sun", Body.Sun), ("Moon", Body.Moon), ("Mars", Body.Mars),
   ("Mercury", Body.Mercury), ("Jupiter", Body.Jupiter), ("Venus", Body.Venus),
   ("Saturn", Body.Saturn), ("Rahu", Body.Rahu), ("Ketu", Body.Ketu)]

/-- `get_planet_positions` (`app.py` lines 41–70), with the observer already
built from `(date, time, lat, lon)`: for each of the nine bodies, compute the
house from the right ascension, look up the constellation sign, and record the
right ascension converted to degrees and rounded to 2 decimal places. -/
def get_planet_positions (E : EphemOracle) (obs : Observer) :
    List (String × PlanetPosition) :=
  planets.map fun nb =>
    let ra := E.bodyRA obs nb.2
    (nb.1,
     { house := wrapHouse (house_raw ra E.piQ)
       nakshatra := E.bodyConstellation obs nb.2
       degrees := round2 (ra * (180 / E.piQ)) })

/-- The loop body of `calculate_ascendants` (`app.py` lines 79–84): record
the Sun's constellation sign at the current observer time under key `i + 1`,
then advance the observer's clock by `ephem.hour * 2`. -/
def ascLoop (E : EphemOracle) : Observer → ℕ → ℕ → List (ℤ × String)
  | _, _, 0 => []
  | obs, i, n + 1 =>
      ((i : ℤ) + 1, E.bodyConstellation obs Body.Sun) ::
        ascLoop E { obs with date := obs.date + E.hour * 2 } (i + 1) n

/-- `calculate_ascendants` (`app.py` lines 73–86): build a fresh observer
from the inputs and run the 12-step ascendant loop. -/
def calculate_ascendants (E : EphemOracle) (date : DateV) (time : TimeV)
    (lat lon : ℚ) : List (ℤ × String) :=
  ascLoop E { lat := lat, lon := lon, date := E.dateNum date time } 0 12

/-- The observation context as held by the caller of `calculate_ascendants`:
the date, time, latitude and longitude variables of `main`. -/
structure CallerCtx where
  date : DateV
  time : TimeV
  lat : ℚ
  lon : ℚ
deriving DecidableEq

/-- The ascendant loop with the caller's context threaded through explicitly:
every iteration carries both the caller's variables and the engine's private
`obs`, and only `obs.date` is ever reassigned (`app.py` line 84). -/
def ascLoopSt (E : EphemOracle) :
    CallerCtx → Observer → ℕ → ℕ → List (ℤ × String) × CallerCtx × Observer
  | ctx, obs, _, 0 => ([], ctx, obs)
  | ctx, obs, i, n + 1 =>
      let rest := ascLoopSt E ctx { obs with date := obs.date + E.hour * 2 } (i + 1) n
      (((i : ℤ) + 1, E.bodyConstellation obs Body.Sun) :: rest.1, rest.2)

/-- `calculate_ascendants` as a state transformer: besides the ascendant map
it returns the caller's context as left after the call, and the final state of
the engine's private observer copy. -/
def ascRun (E : EphemOracle) (ctx : CallerCtx) :
    List (ℤ × String) × CallerCtx × Observer :=
  ascLoopSt E ctx { lat := ctx.lat, lon := ctx.lon, date := E.dateNum ctx.date ctx.time } 0 12

/-- Dictionary indexing `pp[k]` on the `planet_positions` dict (assumes the
key is present, as it always is for Position Engine output). -/
def dget (pp : List (String × PlanetPosition)) (k : String) : PlanetPosition :=
  match pp.find? (fun e => e.1 = k) with
  | some e => e.2
  | none => { house := 0, nakshatra := "", degrees := 0 }

/-- Yoga message for Jupiter in house 9 (`app.py` line 92). -/
def rajaMsg : String :=
  "Raja Yoga: Jupiter in the 9th house indicates good fortune and success."

/-- Yoga message for Venus in house 7 (`app.py` line 94). -/
def dhanaMsg : String :=
  "Dhana Yoga: Venus in the 7th house signifies wealth and good relationships."

/-- Yoga message for Saturn in house 10 (`app.py` line 96). -/
def karmaMsg : String :=
  "Karma Yoga: Saturn in the 10th house indicates discipline and career growth."

/-- Fallback yoga message (`app.py` line 98). -/
def noYogaMsg : String := "No significant yogas identified."

/-- `calculate_yogas` (`app.py` lines 89–99): append a message for each rule
whose house condition holds, then fall back to the single default message if
no rule fired. -/
def calculate_yogas (pp : List (String × PlanetPosition)) : List String :=
  let y1 : List String := if (dget pp "Jupiter").house = 9 then [rajaMsg] else []
  let y2 : List String := if (dget pp "Venus").house = 7 then y1 ++ [dhanaMsg] else y1
  let y3 : List String := if (dget pp "Saturn").house = 10 then y2 ++ [karmaMsg] else y2
  if y3 = [] then [noYogaMsg] else y3

/-- Gregorian leap-year test, as `datetime.date` uses. -/
def isLeap (y : ℤ) : Bool :=
  y % 4 = 0 && (y % 100 ≠ 0 || y % 400 = 0)

/-- Number of days in a month of a given year. -/
def daysInMonth (y m : ℤ) : ℤ :=
  if m = 2 then (if isLeap y then 29 else 28)
  else if m = 4 ∨ m = 6 ∨ m = 9 ∨ m = 11 then 30
  else 31

/-- The validity condition `datetime.date` enforces on its components. -/
def validDate (d : DateV) : Bool :=
  1 ≤ d.year && d.year ≤ 9999 && 1 ≤ d.month && d.month ≤ 12 &&
    1 ≤ d.day && d.day ≤ daysInMonth d.year d.month

/-- The validity condition `datetime.time` enforces on its components. -/
def validTime (t : TimeV) : Bool :=
  0 ≤ t.hour && t.hour < 24 && 0 ≤ t.minute && t.minute < 60 &&
    0 ≤ t.second && t.second < 60

/-- Model of `datetime.datetime.combine(date, time)`: constructing a
timestamp from components succeeds exactly when the date and time components
are in range (the check the `datetime` constructor performs), and raises
`ValueError` otherwise. -/
def datetime_combine (d : DateV) (t : TimeV) : Except Unit (DateV × TimeV) :=
  if validDate d && validTime t then Except.ok (d, t) else Except.error ()

/-- `validate_datetime` (`app.py` lines 33–38): `True` when
`datetime.datetime.combine` succeeds, `False` on `ValueError`. -/
def validate_datetime (d : DateV) (t : TimeV) : Bool :=
  match datetime_combine d t with
  | Except.ok _ => true
  | Except.error _ => false

/-- One geocoder result entry, with its `geometry` coordinates. -/
structure GeoEntry where
  lat : ℚ
  lng : ℚ
deriving DecidableEq

/-- `get_lat_long` (`app.py` lines 21–30), given the outcome of
`geocoder.geocode(query)`: a transport error (an exception inside the
geocoder) propagates uncaught; an empty result list returns `(None, None)`;
otherwise the first result's coordinates are returned. -/
def get_lat_long (geocodeResult : Except Unit (List GeoEntry)) :
    Except Unit (Option (ℚ × ℚ)) :=
  match geocodeResult with
  | Except.error e => Except.error e
  | Except.ok [] => Except.ok none
  | Except.ok (r :: _) => Except.ok (some (r.lat, r.lng))

/-- The observable steps of `main`'s button handler (`app.py` lines 163–171). -/
inductive Step where
  | geoLookup | latLonError | validate | positions | ascendants | plot | crash
deriving DecidableEq

/-- The sequence of steps `main` performs for one "Generate Kundali" request
(`app.py` lines 163–171), given the date and time of birth the user picked
and the outcome of the geocoder call: look up coordinates; if the lookup
returned `None` show an error and return; otherwise compute positions,
ascendants and plot the chart.  An exception in the geocoder aborts the
handler. -/
def mainTrace (dob : DateV) (tob : TimeV)
    (geocodeResult : Except Unit (List GeoEntry)) : List Step :=
  match get_lat_long geocodeResult with
  | Except.error _ => [Step.geoLookup, Step.crash]
  | Except.ok none => [Step.geoLookup, Step.latLonError]
  | Except.ok (some _) => [Step.geoLookup, Step.positions, Step.ascendants, Step.plot]

/-- The three computation outputs of one pipeline run on a context:
planet positions, ascendant map, and the yoga interpretation of the
positions. -/
def pipelineOutputs (E : EphemOracle) (ctx : CallerCtx) :
    List (String × PlanetPosition) × List (ℤ × String) × List String :=
  let pp := get_planet_positions E
    { lat := ctx.lat, lon := ctx.lon, date := E.dateNum ctx.date ctx.time }
  (pp, calculate_ascendants E ctx.date ctx.time ctx.lat ctx.lon, calculate_yogas pp)

/-- The `diamond_points` dict of `plot_kundli` (`app.py` lines 130–134). -/
def diamond_points : List (ℤ × ℚ × ℚ) :=
  [(1, (0, 3/5)), (2, (3/10, 3/10)), (3, (3/5, 0)), (4, (3/10, -3/10)),
   (5, (0, -3/5)), (6, (-3/10, -3/10)), (7, (-3/5, 0)), (8, (-3/10, 3/10)),
   (9, (3/5, 3/5)), (10, (3/5, -3/5)), (11, (-3/5, -3/5)), (12, (-3/5, 3/5))]

/-- Indexing `diamond_points[h]`. -/
def dpoint (h : ℤ) : ℚ × ℚ :=
  match diamond_points.find? (fun e => e.1 = h) with
  | some e => e.2
  | none => (0, 0)

/-- The `lines` list of `plot_kundli` (`app.py` lines 136–141): the four
polygons drawn as the diamond's internal grid. -/
def kundliLines : List (List (ℚ × ℚ)) :=
  [[dpoint 1, dpoint 9, dpoint 3, dpoint 10, dpoint 1],
   [dpoint 5, dpoint 10, dpoint 7, dpoint 11, dpoint 5],
   [dpoint 1, dpoint 8, dpoint 7, dpoint 12, dpoint 1],
   [dpoint 3, dpoint 9, dpoint 11, dpoint 6, dpoint 3]]

/-! ### Concrete test fixtures -/

/-- A concrete ephemeris oracle: `piQ = 3` stands for the float `ephem.pi`,
and every body's right ascension is `5.9999983…`, just below `2 × piQ` —
the right ascension a body has when it sits within 0.005° of the end of the
circle. -/
def E0 : EphemOracle :=
  { piQ := 3
    hour := 1/24
    bodyRA := fun _ _ => 3599999/600000
    bodyConstellation := fun _ _ => "Aries"
    dateNum := fun _ _ => 0 }

/-- A concrete observer. -/
def obs0 : Observer := { lat := 0, lon := 0, date := 0 }

/-- A concrete caller context: 2000-01-01 12:00:00 at the origin. -/
def ctx0 : CallerCtx :=
  { date := { year := 2000, month := 1, day := 1 }
    time := { hour := 12, minute := 0, second := 0 }
    lat := 0
    lon := 0 }

/-- A date that cannot form a valid timestamp: February 30. -/
def badDate : DateV := { year := 2023, month := 2, day := 30 }

/-- Noon. -/
def noonT : TimeV := { hour := 12, minute := 0, second := 0 }

/-! ### Helper lemmas -/

theorem pyInt_of_nonneg {x : ℚ} (hx : 0 ≤ x) : pyInt x = ⌊x⌋ := by
  simp [pyInt, hx]

theorem roundHalfEven_mem {x : ℚ} :
    roundHalfEven x = ⌊x⌋ ∨ roundHalfEven x = ⌊x⌋ + 1 := by
  unfold roundHalfEven
  split_ifs <;> simp

theorem roundHalfEven_nonneg {x : ℚ} (hx : 0 ≤ x) : 0 ≤ roundHalfEven x := by
  have hf : (0 : ℤ) ≤ ⌊x⌋ := Int.floor_nonneg.mpr hx
  rcases roundHalfEven_mem (x := x) with h | h <;> omega

theorem roundHalfEven_le {x : ℚ} {n : ℤ} (hx : x < (n : ℚ)) :
    roundHalfEven x ≤ n := by
  have hf : ⌊x⌋ < n := Int.floor_lt.mpr hx
  rcases roundHalfEven_mem (x := x) with h | h <;> omega

theorem house_raw_floor {ra piQ : ℚ} (h0 : 0 ≤ ra) (hpi : 0 < piQ) :
    house_raw ra piQ = ⌊ra / (2 * piQ) * 12⌋ + 1 := by
  have hq : 0 ≤ ra / (2 * piQ) * 12 := by positivity
  simp [house_raw, pyInt_of_nonneg hq]

theorem house_floor_bounds {ra piQ : ℚ} (hpi : 0 < piQ) (h0 : 0 ≤ ra)
    (h1 : ra ≤ 2 * piQ) :
    0 ≤ ⌊ra / (2 * piQ) * 12⌋ ∧ ⌊ra / (2 * piQ) * 12⌋ ≤ 12 := by
  have h2pi : (0 : ℚ) < 2 * piQ := by linarith
  have hq0 : 0 ≤ ra / (2 * piQ) * 12 := by positivity
  have hq1 : ra / (2 * piQ) * 12 ≤ 12 := by
    have hd : ra / (2 * piQ) ≤ 1 := (div_le_one h2pi).mpr h1
    nlinarith
  constructor
  · exact Int.floor_nonneg.mpr hq0
  · have := Int.floor_le_floor  hq1
    simpa using this

theorem wrapHouse_bounds {ra piQ : ℚ} (hpi : 0 < piQ) (h0 : 0 ≤ ra)
    (h1 : ra ≤ 2 * piQ) :
    1 ≤ wrapHouse (house_raw ra piQ) ∧ wrapHouse (house_raw ra piQ) ≤ 12 := by
  obtain ⟨hl, hu⟩ := house_floor_bounds hpi h0 h1
  rw [house_raw_floor h0 hpi] at *
  unfold wrapHouse
  split_ifs <;> omega

theorem degrees_bounds {ra piQ : ℚ} (hpi : 0 < piQ) (h0 : 0 ≤ ra)
    (h1 : ra < 2 * piQ) :
    0 ≤ round2 (ra * (180 / piQ)) ∧ round2 (ra * (180 / piQ)) ≤ 360 := by
  have hx0 : 0 ≤ ra * (180 / piQ) := by positivity
  have hx1 : ra * (180 / piQ) < 360 := by
    have h180 : 0 < 180 / piQ := by positivity
    have := mul_lt_mul_of_pos_right h1 h180
    have heq : 2 * piQ * (180 / piQ) = 360 := by
      field_simp
      ring
    linarith [heq ▸ this]
  have hr0 : 0 ≤ roundHalfEven (100 * (ra * (180 / piQ))) :=
    roundHalfEven_nonneg (by positivity)
  have hr1 : roundHalfEven (100 * (ra * (180 / piQ))) ≤ (36000 : ℤ) := by
    apply roundHalfEven_le
    push_cast
    linarith
  unfold round2
  constructor
  · positivity
  · rw [div_le_iff₀ (by norm_num : (0:ℚ) < 100)]
    calc (roundHalfEven (100 * (ra * (180 / piQ))) : ℚ)
        ≤ (36000 : ℤ) := by exact_mod_cast hr1
      _ = 360 * 100 := by norm_num

/-! ### Claims -/

/-- **C1.** For every tracked body, the house index is computed as
`floor((right-ascension / 2π) × 12) + 1`, and any result greater than 12 is
wrapped back into `[1,12]` by subtracting 12: a raw value of exactly 13
becomes 1, raw values 1–12 pass through unchanged, and for every angle in
`[0, 2π]` the resulting house lies in `[1,12]`. -/
theorem C1_house_formula (piQ ra : ℚ) (hpi : 0 < piQ) (h0 : 0 ≤ ra)
    (h1 : ra ≤ 2 * piQ) :
    house_raw ra piQ = ⌊ra / (2 * piQ) * 12⌋ + 1
    ∧ (1 ≤ wrapHouse (house_raw ra piQ) ∧ wrapHouse (house_raw ra piQ) ≤ 12)
    ∧ wrapHouse 13 = 1
    ∧ (∀ h : ℤ, 1 ≤ h → h ≤ 12 → wrapHouse h = h) := by
  refine ⟨house_raw_floor h0 hpi, wrapHouse_bounds hpi h0 h1, by decide, ?_⟩
  intro h hh1 hh2
  unfold wrapHouse
  split_ifs <;> omega

/-- Witness for C1 at `piQ = 3`, `ra = 6` (the top of the range, where the
raw house value is 13 and wraps to 1). -/
theorem C1_house_formula_witness :
    house_raw 6 3 = ⌊(6 : ℚ) / (2 * 3) * 12⌋ + 1
    ∧ (1 ≤ wrapHouse (house_raw 6 3) ∧ wrapHouse (house_raw 6 3) ≤ 12)
    ∧ wrapHouse 13 = 1
    ∧ (∀ h : ℤ, 1 ≤ h → h ≤ 12 → wrapHouse h = h) :=
  C1_house_formula 3 6 (by norm_num) (by norm_num) (by norm_num)

theorem roundHalfEven_eq_self_add_one {x : ℚ} {f : ℤ} (hf : ⌊x⌋ = f)
    (h : 1/2 < x - f) : roundHalfEven x = f + 1 := by
  unfold roundHalfEven
  rw [hf, if_neg (by linarith), if_pos h]

theorem E0_sun_entry :
    dget (get_planet_positions E0 obs0) "Sun" =
      { house := wrapHouse (house_raw (3599999/600000) 3)
        nakshatra := "Aries"
        degrees := round2 ((3599999/600000) * (180 / 3)) } := by
  simp [dget, get_planet_positions, planets, E0]

theorem E0_house : wrapHouse (house_raw (3599999/600000) 3) = 12 := by
  have hq : ((3599999 : ℚ)/600000) / (2 * 3) * 12 = 3599999/300000 := by
    norm_num
  have hfl : ⌊(3599999/300000 : ℚ)⌋ = 11 := by
    rw [Int.floor_eq_iff] <;> norm_num
  have hraw : house_raw (3599999/600000) 3 = 12 := by
    unfold house_raw pyInt
    rw [hq, if_pos (by norm_num), hfl]
    norm_num
  rw [hraw]
  rfl

theorem E0_degrees : round2 ((3599999/600000) * (180 / 3)) = 360 := by
  have hx : (100 : ℚ) * ((3599999/600000) * (180 / 3)) = 3599999/100 := by
    norm_num
  have hfl : ⌊(3599999/100 : ℚ)⌋ = 35999 := by
    rw [Int.floor_eq_iff] <;> norm_num
  have hr : roundHalfEven (3599999/100) = 36000 := by
    have := roundHalfEven_eq_self_add_one (x := 3599999/100) (f := 35999) hfl
      (by norm_num)
    simpa using this
  unfold round2
  rw [hx, hr]
  norm_num

theorem entry_bounds {ra piQ : ℚ} (hpi : 0 < piQ) (h0 : 0 ≤ ra)
    (h1 : ra < 2 * piQ) :
    (1 ≤ wrapHouse (house_raw ra piQ) ∧ wrapHouse (house_raw ra piQ) ≤ 12)
    ∧ (0 ≤ round2 (ra * (180 / piQ)) ∧ round2 (ra * (180 / piQ)) ≤ 360) :=
  ⟨wrapHouse_bounds hpi h0 h1.le, degrees_bounds hpi h0 h1⟩

/-- **C2 (amended).** For every observation context under the ephemeris
guarantee that each body's right ascension lies in `[0, 2π)`,
`get_planet_positions` returns exactly 9 entries, one per body in
Sun…Ketu order; each entry's house lies in `[1,12]`, its degree is the
right ascension converted from radians to degrees and rounded to 2 decimal
places, and the degree lies in `[0, 360]` — the upper end `360.00` included,
since rounding can carry a right ascension within 0.005° of `2π` up to it
(the original claim's half-open bound `[0, 360)` fails there). -/
theorem C2_planet_positions (E : EphemOracle) (obs : Observer)
    (hpi : 0 < E.piQ)
    (hra : ∀ b : Body, 0 ≤ E.bodyRA obs b ∧ E.bodyRA obs b < 2 * E.piQ) :
    (get_planet_positions E obs).map Prod.fst =
      ["Sun", "Moon", "Mars", "Mercury", "Jupiter", "Venus", "Saturn", "Rahu", "Ketu"]
    ∧ (get_planet_positions E obs).length = 9
    ∧ (∀ nb ∈ planets, dget (get_planet_positions E obs) nb.1 =
        { house := wrapHouse (house_raw (E.bodyRA obs nb.2) E.piQ)
          nakshatra := E.bodyConstellation obs nb.2
          degrees := round2 (E.bodyRA obs nb.2 * (180 / E.piQ)) })
    ∧ ∀ p ∈ get_planet_positions E obs,
        (1 ≤ p.2.house ∧ p.2.house ≤ 12)
        ∧ (0 ≤ p.2.degrees ∧ p.2.degrees ≤ 360) := by
  refine ⟨rfl, rfl, ?_, ?_⟩
  · intro nb hnb
    fin_cases hnb <;> simp [get_planet_positions, planets, dget]
  · intro p hp
    simp only [get_planet_positions, planets, List.map_cons, List.map_nil,
      List.mem_cons, List.not_mem_nil, or_false] at hp
    rcases hp with rfl | rfl | rfl | rfl | rfl | rfl | rfl | rfl | rfl
    · exact entry_bounds hpi (hra Body.Sun).1 (hra Body.Sun).2
    · exact entry_bounds hpi (hra Body.Moon).1 (hra Body.Moon).2
    · exact entry_bounds hpi (hra Body.Mars).1 (hra Body.Mars).2
    · exact entry_bounds hpi (hra Body.Mercury).1 (hra Body.Mercury).2
    · exact entry_bounds hpi (hra Body.Jupiter).1 (hra Body.Jupiter).2
    · exact entry_bounds hpi (hra Body.Venus).1 (hra Body.Venus).2
    · exact entry_bounds hpi (hra Body.Saturn).1 (hra Body.Saturn).2
    · exact entry_bounds hpi (hra Body.Rahu).1 (hra Body.Rahu).2
    · exact entry_bounds hpi (hra Body.Ketu).1 (hra Body.Ketu).2

/-- Witness for C2 (amended) at the concrete oracle `E0` and observer
`obs0`. -/
theorem C2_planet_positions_witness :
    (get_planet_positions E0 obs0).map Prod.fst =
      ["Sun", "Moon", "Mars", "Mercury", "Jupiter", "Venus", "Saturn", "Rahu", "Ketu"]
    ∧ (get_planet_positions E0 obs0).length = 9 :=
  ⟨(C2_planet_positions E0 obs0 (by norm_num [E0])
      (by intro b; constructor <;> norm_num [E0])).1,
   (C2_planet_positions E0 obs0 (by norm_num [E0])
      (by intro b; constructor <;> norm_num [E0])).2.1⟩

/-- **C2 (counterexample).** At the oracle `E0` — which satisfies the
claim's validity hypotheses (`piQ > 0`, every right ascension in
`[0, 2π)`) — the Sun's recorded degree is exactly `360.00`, violating the
claimed half-open range `[0, 360)`: the right ascension `5.9999983…` rad
converts to `359.9999°`, which rounds to two decimals as `360.00`. -/
theorem C2_degree_counterexample :
    (0 < E0.piQ ∧ ∀ b : Body, 0 ≤ E0.bodyRA obs0 b ∧ E0.bodyRA obs0 b < 2 * E0.piQ)
    ∧ dget (get_planet_positions E0 obs0) "Sun" =
        { house := 12, nakshatra := "Aries", degrees := 360 }
    ∧ ¬ (dget (get_planet_positions E0 obs0) "Sun").degrees < 360 := by
  have hs : dget (get_planet_positions E0 obs0) "Sun" =
      { house := 12, nakshatra := "Aries", degrees := 360 } := by
    rw [E0_sun_entry, E0_house, E0_degrees]
  refine ⟨⟨by norm_num [E0], ?_⟩, hs, ?_⟩
  · intro b
    constructor <;> norm_num [E0]
  · rw [hs]
    norm_num

theorem ascLoop_eq (E : EphemOracle) :
    ∀ (n : ℕ) (obs : Observer) (i : ℕ),
      ascLoop E obs i n =
        (List.range n).map (fun (j : ℕ) =>
          ((i : ℤ) + (j : ℤ) + 1,
           E.bodyConstellation
             { lat := obs.lat, lon := obs.lon
               date := obs.date + (j : ℚ) * (E.hour * 2) }
             Body.Sun))
  | 0, obs, i => by simp [ascLoop]
  | n + 1, obs, i => by
      rw [ascLoop, ascLoop_eq E n _ (i + 1)]
      rw [List.range_succ_eq_map, List.map_cons, List.map_map]
      congr 1
      · simp
      · apply List.map_congr_left
        intro j hj
        dsimp only [Function.comp]
        have hd : obs.date + E.hour * 2 + (j : ℚ) * (E.hour * 2)
            = obs.date + ((j.succ : ℕ) : ℚ) * (E.hour * 2) := by push_cast; ring
        rw [hd]
        congr 1
        push_cast
        ring

/-- **C3.** `calculate_ascendants` returns exactly 12 entries keyed 1..12 in
insertion order, and the sign recorded under house `k` is the Sun's
constellation sign computed at the input time advanced by `2 × (k − 1)`
hours (index `j = k − 1` below); in particular house 1's sign is computed at
the unmodified input time and house 2's sign 2 hours (`ephem.hour * 2`)
later. -/
theorem C3_ascendants (E : EphemOracle) (date : DateV) (time : TimeV)
    (lat lon : ℚ) :
    calculate_ascendants E date time lat lon =
      (List.range 12).map (fun (j : ℕ) =>
        ((j : ℤ) + 1,
         E.bodyConstellation
           { lat := lat, lon := lon
             date := E.dateNum date time + (j : ℚ) * (E.hour * 2) }
           Body.Sun))
    ∧ (calculate_ascendants E date time lat lon).map Prod.fst =
        [1, 2, 3, 4, 5, 6, 7, 8, 9, 10, 11, 12]
    ∧ (calculate_ascendants E date time lat lon).length = 12 := by
  have h := ascLoop_eq E 12 { lat := lat, lon := lon, date := E.dateNum date time } 0
  have hmain : calculate_ascendants E date time lat lon =
      (List.range 12).map (fun (j : ℕ) =>
        ((j : ℤ) + 1,
         E.bodyConstellation
           { lat := lat, lon := lon
             date := E.dateNum date time + (j : ℚ) * (E.hour * 2) }
           Body.Sun)) := by
    unfold calculate_ascendants
    rw [h]
    simp
  refine ⟨hmain, ?_, ?_⟩
  · rw [hmain, List.map_map]
    rfl
  · rw [hmain, List.length_map, List.length_range]

theorem ascLoopSt_eq (E : EphemOracle) :
    ∀ (n : ℕ) (ctx : CallerCtx) (obs : Observer) (i : ℕ),
      ascLoopSt E ctx obs i n =
        (ascLoop E obs i n, ctx,
         { obs with date := obs.date + (n : ℚ) * (E.hour * 2) })
  | 0, ctx, obs, i => by simp [ascLoopSt, ascLoop]
  | n + 1, ctx, obs, i => by
      rw [ascLoopSt, ascLoopSt_eq E n ctx _ (i + 1), ascLoop]
      have hd : obs.date + E.hour * 2 + (n : ℚ) * (E.hour * 2)
          = obs.date + ((n + 1 : ℕ) : ℚ) * (E.hour * 2) := by push_cast; ring
      simp [hd]

/-- **C8.** `calculate_ascendants` never mutates the caller's observation
context: the caller's date, time, latitude and longitude are identical
before and after the call, the result is the same ascendant map, and the
2-hour clock advance happens only on the engine's private observer copy,
whose clock ends up `12 × 2` hours past the start. -/
theorem C8_no_context_mutation (E : EphemOracle) (ctx : CallerCtx) :
    (ascRun E ctx).2.1 = ctx
    ∧ (ascRun E ctx).1 = calculate_ascendants E ctx.date ctx.time ctx.lat ctx.lon
    ∧ (ascRun E ctx).2.2.date = E.dateNum ctx.date ctx.time + 12 * (E.hour * 2) := by
  unfold ascRun calculate_ascendants
  rw [ascLoopSt_eq]
  norm_num

/-- **C4.** `calculate_yogas` emits the fortune/success message exactly when
Jupiter's house is 9, the wealth/relationships message exactly when Venus's
house is 7, the discipline/career message exactly when Saturn's house is 10;
when none of the three rules trigger it returns exactly the one fallback
message, and the result is never empty. -/
theorem C4_yogas (pp : List (String × PlanetPosition)) :
    (rajaMsg ∈ calculate_yogas pp ↔ (dget pp "Jupiter").house = 9)
    ∧ (dhanaMsg ∈ calculate_yogas pp ↔ (dget pp "Venus").house = 7)
    ∧ (karmaMsg ∈ calculate_yogas pp ↔ (dget pp "Saturn").house = 10)
    ∧ (((dget pp "Jupiter").house ≠ 9 ∧ (dget pp "Venus").house ≠ 7 ∧
        (dget pp "Saturn").house ≠ 10) → calculate_yogas pp = [noYogaMsg])
    ∧ calculate_yogas pp ≠ [] := by
  by_cases hJ : (dget pp "Jupiter").house = 9 <;>
    by_cases hV : (dget pp "Venus").house = 7 <;>
      by_cases hS : (dget pp "Saturn").house = 10 <;>
        simp [calculate_yogas, hJ, hV, hS, rajaMsg, dhanaMsg, karmaMsg, noYogaMsg]

/-- **C5 (code bug).** `main` performs no date/time validation at all: for a
request whose date cannot form a valid timestamp (February 30) and whose
location resolves, the handler proceeds straight to the Position Engine —
`validate_datetime`, which would return `False` for this input, is never
invoked, contradicting the contract that invalid combinations be rejected
with a boolean/error signal before any astronomical computation runs. -/
theorem C5_validation_never_runs :
    validDate badDate = false
    ∧ validate_datetime badDate noonT = false
    ∧ mainTrace badDate noonT (Except.ok [{ lat := 0, lng := 0 }]) =
        [Step.geoLookup, Step.positions, Step.ascendants, Step.plot]
    ∧ Step.positions ∈ mainTrace badDate noonT (Except.ok [{ lat := 0, lng := 0 }])
    ∧ Step.validate ∉ mainTrace badDate noonT (Except.ok [{ lat := 0, lng := 0 }]) := by
  have htr : mainTrace badDate noonT (Except.ok [{ lat := 0, lng := 0 }]) =
      [Step.geoLookup, Step.positions, Step.ascendants, Step.plot] := rfl
  refine ⟨by decide, by decide, htr, ?_, ?_⟩
  · rw [htr]; decide
  · rw [htr]; decide

/-- **C6.** A geocoder query with no results yields the distinct
`(None, None)` outcome — a normal return, distinguishable from a transport
error, which propagates as an exception — and `main` then reports the error
and aborts the request without ever invoking the Position Engine. -/
theorem C6_location_not_found (dob : DateV) (tob : TimeV) :
    get_lat_long (Except.ok []) = Except.ok none
    ∧ (∀ e : Unit, get_lat_long (Except.error e) = Except.error e)
    ∧ (Except.ok none : Except Unit (Option (ℚ × ℚ))) ≠ Except.error ()
    ∧ mainTrace dob tob (Except.ok []) = [Step.geoLookup, Step.latLonError]
    ∧ Step.latLonError ∈ mainTrace dob tob (Except.ok [])
    ∧ Step.positions ∉ mainTrace dob tob (Except.ok []) := by
  have htr : mainTrace dob tob (Except.ok []) =
      [Step.geoLookup, Step.latLonError] := rfl
  refine ⟨rfl, fun e => rfl, by simp, htr, ?_, ?_⟩
  · rw [htr]; decide
  · rw [htr]; decide

/-- **C7.** The whole pipeline is deterministic: two runs on identical
inputs — the same ephemeris behaviour and the same context (date, time and
location-lookup coordinates) — produce identical planet positions, identical
ascendant maps and identical yoga interpretations. -/
theorem C7_pipeline_deterministic (E₁ E₂ : EphemOracle) (ctx₁ ctx₂ : CallerCtx)
    (hE : E₁ = E₂) (hctx : ctx₁ = ctx₂) :
    pipelineOutputs E₁ ctx₁ = pipelineOutputs E₂ ctx₂ := by
  subst hE
  subst hctx
  rfl

/-- Witness for C7 at the concrete oracle `E0` and context `ctx0`. -/
theorem C7_pipeline_deterministic_witness :
    pipelineOutputs E0 ctx0 = pipelineOutputs E0 ctx0 :=
  C7_pipeline_deterministic E0 E0 ctx0 ctx0 rfl rfl

/-- **C9.** The chart layout is a static constant, independent of all
astronomical input: exactly 12 house coordinates keyed 1..12 with the fixed
diamond-lattice values of the claim, and exactly four polygons, each listing
4 distinct points of the 12 followed by a closing repeat of its first
point. -/
theorem dpoint_mem (h : ℤ)
    (hh : h ∈ ([1, 2, 3, 4, 5, 6, 7, 8, 9, 10, 11, 12] : List ℤ)) :
    dpoint h ∈ diamond_points.map Prod.snd := by
  fin_cases hh <;> simp [dpoint, diamond_points]

theorem C9_layout :
    diamond_points.map Prod.fst = [1, 2, 3, 4, 5, 6, 7, 8, 9, 10, 11, 12]
    ∧ diamond_points.map Prod.snd =
        [(0, 3/5), (3/10, 3/10), (3/5, 0), (3/10, -3/10), (0, -3/5),
         (-3/10, -3/10), (-3/5, 0), (-3/10, 3/10), (3/5, 3/5), (3/5, -3/5),
         (-3/5, -3/5), (-3/5, 3/5)]
    ∧ kundliLines.length = 4
    ∧ (∀ line ∈ kundliLines,
        line.length = 5 ∧ line.getLast? = line.head? ∧ (line.take 4).Nodup
        ∧ ∀ p ∈ line, p ∈ diamond_points.map Prod.snd) := by
  refine ⟨rfl, rfl, rfl, ?_⟩
  intro line hline
  fin_cases hline
  · refine ⟨rfl, rfl, ?_, ?_⟩
    · simp [dpoint, diamond_points, Prod.ext_iff]
      norm_num
    · intro p hp
      fin_cases hp <;> exact dpoint_mem _ (by decide)
  · refine ⟨rfl, rfl, ?_, ?_⟩
    · simp [dpoint, diamond_points, Prod.ext_iff]
      norm_num
    · intro p hp
      fin_cases hp <;> exact dpoint_mem _ (by decide)
  · refine ⟨rfl, rfl, ?_, ?_⟩
    · simp [dpoint, diamond_points, Prod.ext_iff]
      norm_num
    · intro p hp
      fin_cases hp <;> exact dpoint_mem _ (by decide)
  · refine ⟨rfl, rfl, ?_, ?_⟩
    · simp [dpoint, diamond_points, Prod.ext_iff]
      norm_num
    · intro p hp
      fin_cases hp <;> exact dpoint_mem _ (by decide)

/-- **C10.** For every genuine calendar date and clock time — components in
the ranges `datetime.date` and `datetime.time` themselves enforce —
`datetime.combine` succeeds, so `validate_datetime` returns `True`: its
`ValueError` branch is unreachable and the validator can never report an
invalid combination. -/
theorem C10_validate_always_true (d : DateV) (t : TimeV)
    (hd : validDate d = true) (ht : validTime t = true) :
    validate_datetime d t = true
    ∧ datetime_combine d t = Except.ok (d, t) := by
  unfold validate_datetime datetime_combine
  rw [hd, ht]
  simp

/-- Witness for C10 at 2000-01-01, 12:00:00. -/
theorem C10_validate_always_true_witness :
    validate_datetime { year := 2000, month := 1, day := 1 }
        { hour := 12, minute := 0, second := 0 } = true
    ∧ datetime_combine { year := 2000, month := 1, day := 1 }
        { hour := 12, minute := 0, second := 0 } =
      Except.ok ({ year := 2000, month := 1, day := 1 },
        { hour := 12, minute := 0, second := 0 }) :=
  C10_validate_always_true _ _ (by decide) (by decide)

end Kundli
